import Mathlib

/-!
# Verification of the dbforge slim-dump pipeline

Shallow embedding of the slim-dump pipeline of the repository:

* `src/lib/mysql.js` — `exportSlimSql` (two-phase export + concatenation) and
  the database primitives (`databaseExists`, `createDatabase`, `dropDatabase`);
* `src/lib/file-replace.js` — `loadExcludeTables`;
* `src/electron/ipc-handlers.js` — the `slim:start` handler: the per-item
  state machine, the progress throttles, and the batch loop.

External effects (the MySQL engine, the filesystem, the child processes) are
modelled explicitly: the filesystem is an association list from paths to byte
lists, the engine is the list of existing database names, and the outcome of
each external call (exit status, stderr text, streamed stdout chunks, wall
clock readings) is supplied by an environment record, so that every control
path of the source — success and failure — is representable.
-/

namespace DBForge

/-- File contents: a list of bytes. Only lengths and concatenation matter to
the pipeline, which treats dumps as opaque byte streams. -/
abbrev Bytes := List Nat

/-- The filesystem: an association list from paths to contents. The head
occurrence of a path is its current content. -/
abbrev FS := List (String × Bytes)

namespace FS

/-- Read a file: the content of the first entry for the path, if any. -/
def read (fs : FS) (p : String) : Option Bytes :=
  (fs.find? (fun e => e.1 == p)).map (fun e => e.2)

/-- Write (create or truncate) a file with the given content. -/
def write (fs : FS) (p : String) (c : Bytes) : FS :=
  (p, c) :: fs.filter (fun e => !(e.1 == p))

/-- Delete a file; deleting an absent file is a no-op (the source wraps
`fs.unlink` in `.catch(() => {})`). -/
def unlink (fs : FS) (p : String) : FS :=
  fs.filter (fun e => !(e.1 == p))

end FS

/-! ## Path helpers (`path.basename`, `path.dirname`, `path.join`)

These are written over character lists by structural recursion so that
concrete paths evaluate inside the kernel. -/

/-- Split a character list on a separator character, keeping empty segments
(the semantics of `"a/b".split("/")`). -/
def splitOnCharAux (c : Char) : List Char → List Char → List (List Char)
  | [], acc => [acc.reverse]
  | x :: xs, acc =>
    if x == c then acc.reverse :: splitOnCharAux c xs []
    else splitOnCharAux c xs (x :: acc)

/-- Split a character list on a separator character. -/
def splitOnChar (c : Char) (l : List Char) : List (List Char) :=
  splitOnCharAux c l []

/-- Join segments with `/` separators (inverse of `splitOnChar '/'`). -/
def joinSlash : List (List Char) → List Char
  | [] => []
  | [x] => x
  | x :: xs => x ++ '/' :: joinSlash xs

/-- Model of `path.basename(p)`: the final segment of a slash-separated path. -/
def pathBase (p : String) : String :=
  String.mk ((splitOnChar '/' p.data).getLastD p.data)

/-- Model of `path.basename(p, ".sql")`: the final segment with a trailing `.sql`
stripped, as used by the slim handler to derive the item's logical name. -/
def basenameNoExt (p : String) : String :=
  let b := (pathBase p).data
  if b.reverse.take 4 == "lqs.".data then String.mk ((b.reverse.drop 4).reverse)
  else String.mk b

/-- Model of `path.dirname(p)` for slash-separated paths. -/
def dirname (p : String) : String :=
  let parts := splitOnChar '/' p.data
  if parts.length ≤ 1 then "." else String.mk (joinSlash parts.dropLast)

/-- Model of `path.join(a, b)` (no normalisation beyond inserting the separator). -/
def pathJoin (a b : String) : String := a ++ "/" ++ b

/-- Name of the private schema-phase artifact of `exportSlimSql`:
`path.join(path.dirname(outFile), "._temp_structure_" + Date.now() + ".sql")`. -/
def structureFileOf (outFile : String) (ts : Nat) : String :=
  pathJoin (dirname outFile) ("._temp_structure_" ++ toString ts ++ ".sql")

/-- Name of the private data-phase artifact of `exportSlimSql`:
`path.join(path.dirname(outFile), "._temp_data_" + Date.now() + ".sql")`. -/
def dataFileOf (outFile : String) (ts : Nat) : String :=
  pathJoin (dirname outFile) ("._temp_data_" ++ toString ts ++ ".sql")

/-! ## Exclusion configuration (`loadExcludeTables`, src/lib/file-replace.js) -/

/-- Result of the underlying `fs.readFile`: either the content, a missing-file
error (`ENOENT`), or another I/O error. -/
inductive FsError where
  | enoent : FsError
  | other : String → FsError
deriving DecidableEq, Repr

/-- Model of `loadExcludeTables`: split the artifact on newlines, trim every line, keep
the lines that are non-empty (JS truthiness of the trimmed string) and do not
start with `#`; a missing artifact yields `[]`, any other read error is
re-thrown. -/
def loadExcludeTables (r : Except FsError String) : Except FsError (List String) :=
  match r with
  | .ok content =>
      .ok (((content.splitOn "\n").map (fun line => line.trim)).filter
        (fun line => !(decide (line = "")) && !(line.startsWith "#")))
  | .error e =>
      match e with
      | .enoent => .ok []
      | .other m => .error (.other m)

/-- Written from the spec sentence, for comparison with `loadExcludeTables`:
"blank lines and lines beginning with a comment marker are discarded; all
remaining lines are trimmed and used verbatim as table names". -/
def excludeLinesSpec (content : String) : List String :=
  ((content.splitOn "\n").map (fun line => line.trim)).filter
    (fun line => decide (¬ (line = "" ∨ line.startsWith "#" = true)))

/-! ## Progress arithmetic and throttles (slim:start handler) -/

/-- Model of `Math.round((bytesProcessed / fileSize) * 100)` guarded by
`fileSize > 0 ? ... : 0`, in exact arithmetic: round-half-up of
`100 * bytes / fileSize`. -/
def importPct (fileSize bytes : Nat) : Nat :=
  if 0 < fileSize then (200 * bytes + fileSize) / (2 * fileSize) else 0

/-- Model of `Math.min(95, Math.floor(bytesProcessed / (1024 * 1024)))`: the export
progress percentage (1% per MB, capped at 95). -/
def exportPct (bytes : Nat) : Nat :=
  min 95 (bytes / (1024 * 1024))

/-- The import-progress throttle (used both for the full-dump import and the
restore import): state is `(lastProgressUpdate, lastPercentage)`, an update
`(bytes, now)` is emitted when
`percentage !== lastPercentage && (percentage - lastPercentage >= 1 || now - lastProgressUpdate > 200)`.
Returns the emitted percentages. -/
def runImportThrottleGo (fileSize : Nat) : Nat → Nat → List (Nat × Nat) → List Nat
  | _, _, [] => []
  | lastUpd, lastPct, (bytes, now) :: rest =>
    let p := importPct fileSize bytes
    if p ≠ lastPct ∧ (1 ≤ p - lastPct ∨ 200 < now - lastUpd) then
      p :: runImportThrottleGo fileSize now p rest
    else
      runImportThrottleGo fileSize lastUpd lastPct rest

/-- The import throttle from its initial state (`lastProgressUpdate = 0`,
`lastPercentage = 0`). -/
def runImportThrottle (fileSize : Nat) (upds : List (Nat × Nat)) : List Nat :=
  runImportThrottleGo fileSize 0 0 upds

/-- The export-progress throttle: an update is emitted when
`percentage !== lastExportPercentage || now - lastExportUpdate > 200`. -/
def runExportThrottleGo : Nat → Nat → List (Nat × Nat) → List Nat
  | _, _, [] => []
  | lastUpd, lastPct, (bytes, now) :: rest =>
    let p := exportPct bytes
    if p ≠ lastPct ∨ 200 < now - lastUpd then
      p :: runExportThrottleGo now p rest
    else
      runExportThrottleGo lastUpd lastPct rest

/-- Percentages shown under the "Exporting slim dump..." label for one item:
the unconditional initial 0 event, then the throttled callback emissions. -/
def exportStepPcts (trace : List (Nat × Nat)) : List Nat :=
  0 :: runExportThrottleGo 0 0 trace

/-! ## `exportSlimSql` (src/lib/mysql.js) -/

/-- One `mysqldump` invocation as observed by the pipeline: the stdout chunks
it streams (each chunk is written to the artifact and triggers the progress
callback with the cumulative byte count), and its exit status — `none` for
exit 0, `some stderr` for a non-zero exit. -/
structure DumpRun where
  chunks : List Bytes
  exit : Option String
deriving DecidableEq, Repr

/-- Environment of one `exportSlimSql` call: the two `mysqldump` runs and the
two `Date.now()` readings used to name the private artifacts. -/
structure SlimEnv where
  structRun : DumpRun
  dataRun : DumpRun
  ts1 : Nat
  ts2 : Nat
deriving DecidableEq, Repr

/-- Cumulative byte totals after each chunk, starting from `acc`. -/
def cumSizes : Nat → List Nat → List Nat
  | _, [] => []
  | acc, s :: ss => (acc + s) :: cumSizes (acc + s) ss

/-- Cumulative `bytesWritten` totals of a chunk stream. -/
def cumulative (chunks : List Bytes) : List Nat :=
  cumSizes 0 (chunks.map (fun c => c.length))

/-- The byte counters `exportSlimSql` passes to `onProgress`: during phase 1
each chunk reports `Math.floor(bytesWritten / 2)`; during phase 2 each chunk
reports `Math.floor(bytesWritten / 2) + bytesWritten` (the code as written);
phase 2 only runs when phase 1 exited 0. -/
def slimTrace (env : SlimEnv) : List Nat :=
  let tr1 := (cumulative env.structRun.chunks).map (fun bw => bw / 2)
  match env.structRun.exit with
  | some _ => tr1
  | none =>
      tr1 ++ (cumulative env.dataRun.chunks).map (fun bw => bw / 2 + bw)

/-- Model of `exportSlimSql(dbName, outFile, excludeDataTables, onProgress)`:
phase 1 streams the schema dump into the structure artifact, phase 2 streams
the data dump into the data artifact, phase 3 concatenates both artifacts into
`outFile`; on any phase failure both artifacts are unlinked (errors swallowed)
and the phase's error is re-thrown. Returns the outcome, the resulting
filesystem, and the byte counters passed to `onProgress`. The `dbName` and
`excludeDataTables` arguments only shape the external command line and do not
otherwise enter the model. -/
def exportSlimSql (dbName outFile : String) (excludeDataTables : List String)
    (env : SlimEnv) (fs : FS) : Except String Unit × FS × List Nat :=
  let _ := dbName
  let _ := excludeDataTables
  let structureFile := structureFileOf outFile env.ts1
  let dataFile := dataFileOf outFile env.ts2
  -- Phase 1: mysqldump --no-data, streamed to the structure artifact.
  let fs1 := fs.write structureFile env.structRun.chunks.flatten
  match env.structRun.exit with
  | some m =>
      (Except.error ("MySQL structure export failed: " ++ m),
       (fs1.unlink structureFile).unlink dataFile, slimTrace env)
  | none =>
    -- Phase 2: mysqldump --no-create-info --ignore-table=..., streamed to
    -- the data artifact.
    let fs2 := fs1.write dataFile env.dataRun.chunks.flatten
    match env.dataRun.exit with
    | some m =>
        (Except.error ("MySQL data export failed: " ++ m),
         (fs2.unlink structureFile).unlink dataFile, slimTrace env)
    | none =>
      -- Phase 3: pipe the structure artifact, then the data artifact, into
      -- the final output, then unlink both artifacts.
      match fs2.read structureFile, fs2.read dataFile with
      | some a, some b =>
          let fs3 := fs2.write outFile (a ++ b)
          (Except.ok (), (fs3.unlink structureFile).unlink dataFile,
           slimTrace env)
      | _, _ =>
          (Except.error "concat failed",
           (fs2.unlink structureFile).unlink dataFile, slimTrace env)

/-! ## Engine state and database primitives (src/lib/mysql.js) -/

/-- The state visible to the pipeline: the set of databases of the external
engine (as a list of names) and the filesystem. -/
structure SysState where
  dbs : List String
  files : FS
deriving DecidableEq, Repr

/-- Model of `databaseExists` (successful run): any row returned for the name-filtered
listing, i.e. membership in the engine's database list. -/
def databaseExists (st : SysState) (name : String) : Bool :=
  st.dbs.contains name

/-- Model of `dropDatabase` (successful run): the database disappears. -/
def dropDatabase (st : SysState) (name : String) : SysState :=
  { st with dbs := st.dbs.filter (fun d => !(d == name)) }

/-- Model of `createDatabase` (successful run): the database appears. -/
def createDatabase (st : SysState) (name : String) : SysState :=
  { st with dbs := name :: st.dbs }

/-! ## The slim:start per-item state machine (src/electron/ipc-handlers.js) -/

/-- The `restoreConfig` argument of `slim:start`: the enabled flag and the
`databaseNames` map from input path to target database name. -/
structure RestoreCfg where
  enabled : Bool
  databaseNames : List (String × String)
deriving DecidableEq, Repr

/-- Lookup of `restoreConfig.databaseNames[fullSqlPath]`. -/
def targetOf (cfg : RestoreCfg) (p : String) : Option String :=
  (cfg.databaseNames.find? (fun e => e.1 == p)).map (fun e => e.2)

instance instDecEqExceptPair {ε α : Type} [DecidableEq ε] [DecidableEq α] :
    DecidableEq (Except ε α) := fun x y =>
  match x, y with
  | .ok a, .ok b => decidable_of_iff (a = b) (by simp)
  | .ok _, .error _ => isFalse (by simp)
  | .error _, .ok _ => isFalse (by simp)
  | .error e, .error f => decidable_of_iff (e = f) (by simp)

/-- Outcomes of the external calls made while processing one item. For each
engine call, `none` means the call succeeds (its effect is computed from the
state) and `some stderr` means the spawned client exited non-zero with the
given stderr text, rejecting the corresponding promise. Chunk-size and
wall-clock lists drive the streamed progress callbacks. -/
structure ItemEnv where
  existsTempCheck : Option String
  dropTemp1 : Option String
  createTemp : Option String
  importChunkSizes : List Nat
  importTimes : List Nat
  importExit : Option String
  slimEnv : SlimEnv
  exportTimes : List Nat
  dropTemp2 : Option String
  existsTargetCheck : Option String
  dropTarget : Option String
  createTarget : Option String
  restoreChunkSizes : List Nat
  restoreTimes : List Nat
  restoreImportExit : Option String
  dbInfo : Except String (Nat × Nat)
  catchExistsCheck : Option String
  catchDrop : Option String
deriving DecidableEq, Repr

/-- A progress event sent on the progress channel. -/
structure Ev where
  current : Nat
  total : Nat
  currentFile : Option String
  step : String
  stepProgress : Option Nat
deriving DecidableEq, Repr

/-- An in-item progress event. -/
def mkEv (i n : Nat) (base step : String) (pct : Nat) : Ev :=
  ⟨i, n, some base, step, some pct⟩

/-- The terminal batch event (`step: 'Complete'`, no stepProgress). -/
def completeEv (n : Nat) : Ev := ⟨n, n, none, "Complete", none⟩

/-- The summary info recorded after a successful optional restore. -/
structure RestoreInfo where
  databaseName : String
  tableCount : Nat
  size : Nat
deriving DecidableEq, Repr

/-- One entry of the `results` array. Sizes are kept in raw bytes (the source
formats them for display with `formatFileSize`, which does not change what is
measured). A failure entry carries only the file name and the error message. -/
structure ItemResult where
  success : Bool
  fileName : String
  fullSize : Option Nat
  slimSize : Option Nat
  savings : Option Int
  slimPath : Option String
  restored : Option RestoreInfo
  error : Option String
deriving DecidableEq, Repr

/-- Model of `Math.round((1 - slimBytes / fullBytes) * 100)` in exact arithmetic:
round-half-up of `100 * (full - slim) / full`, written as a single floor
division `⌊(200 * (full - slim) + full) / (2 * full)⌋`. -/
def savingsOf (full slim : Nat) : Int :=
  Int.fdiv (200 * ((full : Int) - (slim : Int)) + (full : Int))
    (2 * (full : Int))

/-- The failure entry pushed by the per-item catch. -/
def failRes (base msg : String) : ItemResult :=
  ⟨false, base, none, none, none, none, none, some msg⟩

/-- Lines 186–190: drop the temp database if it exists, then create it.
Returns the updated state and the error message of the first rejected call,
if any. -/
def recreateTemp (env : ItemEnv) (temp : String) (st : SysState) :
    SysState × Option String :=
  match env.existsTempCheck with
  | some m => (st, some ("MySQL check database failed: " ++ m))
  | none =>
    if databaseExists st temp then
      match env.dropTemp1 with
      | some m => (st, some ("MySQL drop database failed: " ++ m))
      | none =>
        match env.createTemp with
        | some m =>
            (dropDatabase st temp, some ("MySQL create database failed: " ++ m))
        | none => (createDatabase (dropDatabase st temp) temp, none)
    else
      match env.createTemp with
      | some m => (st, some ("MySQL create database failed: " ++ m))
      | none => (createDatabase st temp, none)

/-- Lines 357–370: the per-item catch. The best-effort drop of the temp
database swallows its own errors (a failing existence check or drop leaves the
state as it is); the failure entry records the original error message. -/
def slimCatch (env : ItemEnv) (temp base msg : String) (st : SysState) :
    SysState × ItemResult :=
  match env.catchExistsCheck with
  | some _ => (st, failRes base msg)
  | none =>
    if databaseExists st temp then
      match env.catchDrop with
      | some _ => (st, failRes base msg)
      | none => (dropDatabase st temp, failRes base msg)
    else (st, failRes base msg)

/-- The tail of the restore step, from `createDatabase(targetDbName)` on:
create the target, stat the slim dump, import it with throttled progress
events, and query the final table count/size. -/
def restoreFromCreate (i n : Nat) (base slimPath t : String) (env : ItemEnv)
    (st1 : SysState) : SysState × List Ev × Except String (Option RestoreInfo) :=
  let lbl := "Restoring to " ++ t ++ "..."
  let ev0 := mkEv i n base lbl 0
  match env.createTarget with
  | some m => (st1, [ev0], .error ("MySQL create database failed: " ++ m))
  | none =>
    let st2 := createDatabase st1 t
    match st2.files.read slimPath with
    | none =>
        (st2, [ev0],
         .error ("ENOENT: no such file or directory, stat " ++ slimPath))
    | some slimContent =>
      let revs := (runImportThrottle slimContent.length
          ((cumSizes 0 env.restoreChunkSizes).zip env.restoreTimes)).map
        (fun pct => mkEv i n base lbl pct)
      match env.restoreImportExit with
      | some m =>
          (st2, ev0 :: revs, .error ("MySQL import failed: " ++ m))
      | none =>
        match env.dbInfo with
        | .error m => (st2, ev0 :: revs, .error m)
        | .ok (tc, sz) =>
            (st2, ev0 :: revs, .ok (some ⟨t, tc, sz⟩))

/-- Lines 286–337: the optional restore step. Runs only when the restore
config is enabled and names a target for this input path; drops the target if
it exists, then hands over to `restoreFromCreate`. Returns the state, the
emitted events, and either the restore summary (`none` when no restore was
requested) or the error message of the first rejected call. -/
def restoreStep (i n : Nat) (base slimPath : String) (cfg : RestoreCfg)
    (env : ItemEnv) (p : String) (st : SysState) :
    SysState × List Ev × Except String (Option RestoreInfo) :=
  if cfg.enabled then
    match targetOf cfg p with
    | none => (st, [], .ok none)
    | some t =>
      match env.existsTargetCheck with
      | some m =>
          (st, [mkEv i n base ("Restoring to " ++ t ++ "...") 0],
           .error ("MySQL check database failed: " ++ m))
      | none =>
        if databaseExists st t then
          match env.dropTarget with
          | some m =>
              (st, [mkEv i n base ("Restoring to " ++ t ++ "...") 0],
               .error ("MySQL drop database failed: " ++ m))
          | none => restoreFromCreate i n base slimPath t env (dropDatabase st t)
        else restoreFromCreate i n base slimPath t env st
  else (st, [], .ok none)

/-- The progress events of the full-dump import of one item: the throttled
emissions of the import callback under the "Importing full dump..." label. -/
def importEvents (i n : Nat) (base : String) (fileSize : Nat)
    (env : ItemEnv) : List Ev :=
  (runImportThrottle fileSize
      ((cumSizes 0 env.importChunkSizes).zip env.importTimes)).map
    (fun pct => mkEv i n base "Importing full dump..." pct)

/-- The progress events of the slim export of one item: the throttled
emissions of the export callback under the "Exporting slim dump..." label,
fed with the byte counters `exportSlimSql` reports. -/
def exportEvents (i n : Nat) (base : String) (env : ItemEnv) : List Ev :=
  (runExportThrottleGo 0 0 ((slimTrace env.slimEnv).zip env.exportTimes)).map
    (fun pct => mkEv i n base "Exporting slim dump..." pct)

/-- Lines 170–371 of src/electron/ipc-handlers.js: processing of one item of a
slim batch. `n` is the batch size, `i` the item index, `p` the input file
path. Follows the source's step order: recreate the temp database, stat the
input, import it, export the slim dump, drop the temp database, optionally
restore, stat the artifacts, and push a success entry; any rejection along the
way falls into the per-item catch, which best-effort-drops the temp database
and pushes a failure entry. Returns the final state, the recorded ItemResult,
and the events sent on the progress channel. -/
def processItem (n i : Nat) (slimDir : String) (cfg : RestoreCfg)
    (excludeTables : List String) (env : ItemEnv) (p : String)
    (st0 : SysState) : SysState × ItemResult × List Ev :=
  let base := basenameNoExt p
  let temp := base ++ "_temp"
  let slimPath := pathJoin slimDir (base ++ "_slim.sql")
  let e0 := mkEv i n base "Creating temp database..." 0
  match recreateTemp env temp st0 with
  | (st1, some m) =>
      let (st2, r) := slimCatch env temp base m st1
      (st2, r, [e0])
  | (st1, none) =>
    let e1 := mkEv i n base "Creating temp database..." 100
    match st1.files.read p with
    | none =>
        let (st2, r) := slimCatch env temp base
          ("ENOENT: no such file or directory, stat " ++ p) st1
        (st2, r, [e0, e1])
    | some content =>
      let fileSize := content.length
      let e2 := mkEv i n base "Importing full dump..." 0
      let impEvs := importEvents i n base fileSize env
      match env.importExit with
      | some m =>
          let (st2, r) := slimCatch env temp base
            ("MySQL import failed: " ++ m) st1
          (st2, r, [e0, e1, e2] ++ impEvs)
      | none =>
        let e3 := mkEv i n base "Exporting slim dump..." 0
        match exportSlimSql temp slimPath excludeTables env.slimEnv st1.files with
        | (res, files2, _) =>
          let st2 : SysState := { st1 with files := files2 }
          let expEvs := exportEvents i n base env
          let evs1 := [e0, e1, e2] ++ impEvs ++ [e3] ++ expEvs
          match res with
          | .error m =>
              let (st3, r) := slimCatch env temp base m st2
              (st3, r, evs1)
          | .ok _ =>
            let e4 := mkEv i n base "Cleaning up..." 0
            match env.dropTemp2 with
            | some m =>
                let (st3, r) := slimCatch env temp base
                  ("MySQL drop database failed: " ++ m) st2
                (st3, r, evs1 ++ [e4])
            | none =>
              let st3 := dropDatabase st2 temp
              let e5 := mkEv i n base "Cleaning up..." 100
              match restoreStep i n base slimPath cfg env p st3 with
              | (st4, revs, .error m) =>
                  let (st5, r) := slimCatch env temp base m st4
                  (st5, r, evs1 ++ [e4, e5] ++ revs)
              | (st4, revs, .ok rinfo) =>
                match st4.files.read p, st4.files.read slimPath with
                | some fullC, some slimC =>
                    let r : ItemResult :=
                      ⟨true, base, some fullC.length, some slimC.length,
                       some (savingsOf fullC.length slimC.length),
                       some slimPath, rinfo, none⟩
                    (st4, r, evs1 ++ [e4, e5] ++ revs)
                | none, _ =>
                    let (st5, r) := slimCatch env temp base
                      ("ENOENT: no such file or directory, stat " ++ p) st4
                    (st5, r, evs1 ++ [e4, e5] ++ revs)
                | some _, none =>
                    let (st5, r) := slimCatch env temp base
                      ("ENOENT: no such file or directory, stat " ++ slimPath) st4
                    (st5, r, evs1 ++ [e4, e5] ++ revs)

/-- The `for` loop of the slim handler: process the items sequentially,
threading the state, collecting one result per item and concatenating the
emitted events. `n` is the total count, `i` the index of the first remaining
item. -/
def slimLoop (n : Nat) (slimDir : String) (cfg : RestoreCfg)
    (excl : List String) :
    Nat → SysState → List (String × ItemEnv) → SysState × List ItemResult × List Ev
  | _, st, [] => (st, [], [])
  | i, st, (p, env) :: rest =>
    let (st1, r, evs) := processItem n i slimDir cfg excl env p st
    let (st2, rs, evs2) := slimLoop n slimDir cfg excl (i + 1) st1 rest
    (st2, r :: rs, evs ++ evs2)

/-- The message of a configuration-load failure, as wrapped by the handler's
outer catch (`Slim dump failed: ...`). -/
def fsErrMsg : FsError → String
  | .enoent => "ENOENT"
  | .other m => m

/-- The whole `slim:start` handler: load the exclusion configuration (a
non-ENOENT read error aborts the batch before any item runs), then run the
loop and append the terminal `Complete` event. -/
def slimStart (slimDir : String) (cfg : RestoreCfg)
    (cfgLoad : Except FsError String) (items : List (String × ItemEnv))
    (st : SysState) : Except String (SysState × List ItemResult × List Ev) :=
  match loadExcludeTables cfgLoad with
  | .error e => .error ("Slim dump failed: " ++ fsErrMsg e)
  | .ok excl =>
      let (st1, rs, evs) := slimLoop items.length slimDir cfg excl 0 st items
      .ok (st1, rs, evs ++ [completeEv items.length])


/-! ## Concrete scenarios used by witnesses and counterexamples -/

/-- Whether an event belongs to the optional restore step (its label starts
with `Restoring to `). -/
def isRestoreEv (e : Ev) : Bool :=
  List.isPrefixOf "Restoring to ".data e.step.data

/-- An item environment in which every external call succeeds: a tiny dump,
one import chunk, schema chunk `[1, 2]`, data chunk `[3]`. -/
def envOK : ItemEnv :=
  { existsTempCheck := none, dropTemp1 := none, createTemp := none,
    importChunkSizes := [4], importTimes := [0], importExit := none,
    slimEnv := ⟨⟨[[1, 2]], none⟩, ⟨[[3]], none⟩, 11, 12⟩,
    exportTimes := [0, 0], dropTemp2 := none,
    existsTargetCheck := none, dropTarget := none, createTarget := none,
    restoreChunkSizes := [3], restoreTimes := [0], restoreImportExit := none,
    dbInfo := .ok (5, 9), catchExistsCheck := none, catchDrop := none }

/-- Like `envOK`, except that the import of the full dump fails and the best-effort
drop in the per-item catch also fails. -/
def envCatchFail : ItemEnv :=
  { envOK with importExit := some "boom", catchDrop := some "denied" }

/-- Like `envOK`, except that the import of the slim dump into the restore target
fails. -/
def envRestoreFail : ItemEnv :=
  { envOK with restoreImportExit := some "boom" }

/-- Like `envOK`, except that the import of the full dump fails. -/
def envImportFail : ItemEnv :=
  { envOK with importExit := some "unreadable" }

/-- An initial state: no databases, one input dump of four bytes. -/
def st0 : SysState :=
  { dbs := [], files := [("in/shop.sql", [1, 2, 3, 4])] }

/-- A 4 MiB chunk of zero bytes. -/
def bigChunk : Bytes := List.replicate 4194304 0

/-- A slim-export environment whose schema dump is 4 MiB (one chunk) and
whose data dump is 10 bytes, both exiting 0: large enough for the export
percentage to reach 2% during the schema phase. -/
def envBigSchema : SlimEnv :=
  ⟨⟨[bigChunk], none⟩, ⟨[List.replicate 10 0], none⟩, 1, 2⟩

/-- A slim-export environment with a 100-byte schema chunk and a 10-byte data
chunk, both exiting 0. -/
def envSmall : SlimEnv :=
  ⟨⟨[List.replicate 100 7], none⟩, ⟨[List.replicate 10 3], none⟩, 11, 12⟩

/-- Variant of `envOK` with the 4 MiB-schema slim-export environment. -/
def envBig : ItemEnv :=
  { envOK with slimEnv := envBigSchema, exportTimes := [0, 0] }

/-- A slim-export environment whose schema-phase `mysqldump` exits non-zero
after streaming one byte. -/
def envStructFail : SlimEnv :=
  ⟨⟨[[1]], some "badexit"⟩, ⟨[[3]], none⟩, 21, 22⟩

/-- A slim-export environment whose data-phase `mysqldump` exits non-zero. -/
def envDataFail : SlimEnv :=
  ⟨⟨[[1, 2]], none⟩, ⟨[[3]], some "badexit"⟩, 21, 22⟩

/-- A two-item batch whose first item fails (its input file is absent from
`st0`, so its stat rejects) and whose second item succeeds. -/
def itemsW : List (String × ItemEnv) :=
  [("bad.sql", envImportFail), ("in/shop.sql", envOK)]

/-! ## Helper lemmas -/

theorem FS.read_write_same (fs : FS) (p : String) (c : Bytes) :
    (fs.write p c).read p = some c := by
  simp [FS.read, FS.write, List.find?]

theorem FS.find?_filter_ne (fs : FS) (p q : String) (h : q ≠ p) :
    ((fs.filter (fun e => !(e.1 == p))).find? (fun e => e.1 == q)) =
      fs.find? (fun e => e.1 == q) := by
  induction fs with
  | nil => rfl
  | cons e rest ih =>
    by_cases hp : e.1 = p
    · have hq : ¬ e.1 = q := by rw [hp]; exact fun hh => h hh.symm
      rw [List.filter_cons_of_neg (by simp [hp]),
        List.find?_cons_of_neg _ (by simp [hq])]
      exact ih
    · rw [List.filter_cons_of_pos (by simp [hp])]
      by_cases hq : e.1 = q
      · rw [List.find?_cons_of_pos _ (by simp [hq]),
          List.find?_cons_of_pos _ (by simp [hq])]
      · rw [List.find?_cons_of_neg _ (by simp [hq]),
          List.find?_cons_of_neg _ (by simp [hq])]
        exact ih

theorem FS.read_write_ne (fs : FS) (p q : String) (c : Bytes) (h : q ≠ p) :
    (fs.write p c).read q = fs.read q := by
  have hq : ¬ (p, c).1 = q := fun hh => h hh.symm
  unfold FS.read FS.write
  rw [List.find?_cons_of_neg _ (by simp [hq]), FS.find?_filter_ne fs p q h]

theorem FS.read_unlink_same (fs : FS) (p : String) :
    (fs.unlink p).read p = none := by
  unfold FS.read FS.unlink
  have : (fs.filter (fun e => !(e.1 == p))).find? (fun e => e.1 == p) = none := by
    induction fs with
    | nil => rfl
    | cons e rest ih =>
      by_cases hp : e.1 = p
      · rw [List.filter_cons_of_neg (by simp [hp])]
        exact ih
      · rw [List.filter_cons_of_pos (by simp [hp]),
          List.find?_cons_of_neg _ (by simp [hp])]
        exact ih
  rw [this]
  rfl

theorem FS.read_unlink_ne (fs : FS) (p q : String) (h : q ≠ p) :
    (fs.unlink p).read q = fs.read q := by
  unfold FS.read FS.unlink
  rw [FS.find?_filter_ne fs p q h]

theorem dbs_dropDatabase_self (st : SysState) (name : String) :
    (dropDatabase st name).dbs.contains name = false := by
  simp [dropDatabase, List.contains, List.mem_filter]

theorem dbs_createDatabase_other (st : SysState) (name other : String)
    (h : other ≠ name) :
    (createDatabase st other).dbs.contains name = st.dbs.contains name := by
  have h2 : ¬ name = other := fun hh => h hh.symm
  simp [createDatabase, List.contains, h2]

theorem dbs_dropDatabase_other (st : SysState) (name other : String)
    (h : st.dbs.contains name = false) :
    (dropDatabase st other).dbs.contains name = false := by
  simp only [List.contains, List.elem_eq_mem, decide_eq_false_iff_not] at h ⊢
  simp only [dropDatabase, List.mem_filter]
  rintro ⟨hm, _⟩
  exact h hm

theorem files_dropDatabase (st : SysState) (name : String) :
    (dropDatabase st name).files = st.files := rfl

theorem files_createDatabase (st : SysState) (name : String) :
    (createDatabase st name).files = st.files := rfl

theorem slimCatch_snd (env : ItemEnv) (temp base msg : String) (st : SysState) :
    (slimCatch env temp base msg st).2 = failRes base msg := by
  unfold slimCatch
  cases env.catchExistsCheck with
  | some m => rfl
  | none =>
    by_cases h : databaseExists st temp
    · rw [if_pos h]
      cases env.catchDrop with
      | some m => rfl
      | none => rfl
    · rw [if_neg h]

theorem slimCatch_files (env : ItemEnv) (temp base msg : String) (st : SysState) :
    (slimCatch env temp base msg st).1.files = st.files := by
  unfold slimCatch
  cases env.catchExistsCheck with
  | some m => rfl
  | none =>
    by_cases h : databaseExists st temp
    · rw [if_pos h]
      cases env.catchDrop with
      | some m => rfl
      | none => exact files_dropDatabase st temp
    · rw [if_neg h]

theorem slimCatch_clears (env : ItemEnv) (temp base msg : String)
    (st : SysState) (h1 : env.catchExistsCheck = none)
    (h2 : env.catchDrop = none) :
    (slimCatch env temp base msg st).1.dbs.contains temp = false := by
  unfold slimCatch
  rw [h1]
  by_cases h : databaseExists st temp
  · rw [if_pos h, h2]
    exact dbs_dropDatabase_self st temp
  · rw [if_neg h]
    simpa [databaseExists] using h

theorem recreateTemp_files (env : ItemEnv) (temp : String) (st : SysState) :
    (recreateTemp env temp st).1.files = st.files := by
  unfold recreateTemp
  cases env.existsTempCheck with
  | some m => rfl
  | none =>
    by_cases h : databaseExists st temp
    · rw [if_pos h]
      cases env.dropTemp1 with
      | some m => rfl
      | none =>
        cases env.createTemp with
        | some m => exact files_dropDatabase st temp
        | none => rfl
    · rw [if_neg h]
      cases env.createTemp with
      | some m => rfl
      | none => rfl

theorem recreateTemp_ok_env (env : ItemEnv) (temp : String) (st : SysState)
    (h : (recreateTemp env temp st).2 = none) :
    env.existsTempCheck = none ∧ env.createTemp = none := by
  unfold recreateTemp at h
  cases he : env.existsTempCheck with
  | some m => rw [he] at h; cases h
  | none =>
    rw [he] at h
    refine ⟨rfl, ?_⟩
    by_cases hx : databaseExists st temp
    · rw [if_pos hx] at h
      cases hd : env.dropTemp1 with
      | some m => rw [hd] at h; cases h
      | none =>
        rw [hd] at h
        cases hc : env.createTemp with
        | some m => rw [hc] at h; cases h
        | none => rfl
    · rw [if_neg hx] at h
      cases hc : env.createTemp with
      | some m => rw [hc] at h; cases h
      | none => rfl

theorem restoreFromCreate_files (i n : Nat) (base slimPath t : String)
    (env : ItemEnv) (st1 : SysState) :
    (restoreFromCreate i n base slimPath t env st1).1.files = st1.files := by
  simp only [restoreFromCreate]
  cases env.createTarget with
  | some m => rfl
  | none =>
    cases hr : FS.read (createDatabase st1 t).files slimPath with
    | none => rfl
    | some c =>
      cases env.restoreImportExit with
      | some m => rfl
      | none =>
        cases env.dbInfo with
        | error m => rfl
        | ok v => obtain ⟨tc, sz⟩ := v; rfl

theorem restoreStep_files (i n : Nat) (base slimPath : String)
    (cfg : RestoreCfg) (env : ItemEnv) (p : String) (st : SysState) :
    (restoreStep i n base slimPath cfg env p st).1.files = st.files := by
  simp only [restoreStep]
  by_cases he : cfg.enabled
  · rw [if_pos he]
    cases targetOf cfg p with
    | none => rfl
    | some t =>
      cases env.existsTargetCheck with
      | some m => rfl
      | none =>
        simp only []
        by_cases hx : databaseExists st t
        · rw [if_pos hx]
          cases env.dropTarget with
          | some m => rfl
          | none => exact restoreFromCreate_files _ _ _ _ _ _ _
        · rw [if_neg hx]
          exact restoreFromCreate_files _ _ _ _ _ _ _
  · rw [if_neg he]

theorem restoreFromCreate_keeps_absent (i n : Nat) (base slimPath t : String)
    (env : ItemEnv) (st1 : SysState) (temp : String) (ht : t ≠ temp)
    (h : st1.dbs.contains temp = false) :
    (restoreFromCreate i n base slimPath t env st1).1.dbs.contains temp =
      false := by
  have hc : (createDatabase st1 t).dbs.contains temp = false := by
    rw [dbs_createDatabase_other st1 temp t ht]
    exact h
  simp only [restoreFromCreate]
  cases env.createTarget with
  | some m => exact h
  | none =>
    cases hr : FS.read (createDatabase st1 t).files slimPath with
    | none => exact hc
    | some c =>
      cases env.restoreImportExit with
      | some m => exact hc
      | none =>
        cases env.dbInfo with
        | error m => exact hc
        | ok v => obtain ⟨tc, sz⟩ := v; exact hc

theorem restoreStep_keeps_absent (i n : Nat) (base slimPath : String)
    (cfg : RestoreCfg) (env : ItemEnv) (p : String) (st : SysState)
    (temp : String) (ht : targetOf cfg p ≠ some temp)
    (h : st.dbs.contains temp = false) :
    (restoreStep i n base slimPath cfg env p st).1.dbs.contains temp =
      false := by
  simp only [restoreStep]
  by_cases he : cfg.enabled
  · rw [if_pos he]
    cases htg : targetOf cfg p with
    | none => exact h
    | some t =>
      have htt : t ≠ temp := by
        intro hh
        exact ht (by rw [htg, hh])
      cases env.existsTargetCheck with
      | some m => exact h
      | none =>
        simp only []
        by_cases hx : databaseExists st t
        · rw [if_pos hx]
          cases env.dropTarget with
          | some m => exact h
          | none =>
            exact restoreFromCreate_keeps_absent _ _ _ _ _ _ _ _ htt
              (dbs_dropDatabase_other st temp t h)
        · rw [if_neg hx]
          exact restoreFromCreate_keeps_absent _ _ _ _ _ _ _ _ htt h
  · rw [if_neg he]
    exact h

theorem exportSlimSql_ok_exits (dbName outFile : String)
    (excl : List String) (env : SlimEnv) (fs : FS)
    (h : (exportSlimSql dbName outFile excl env fs).1 = Except.ok ()) :
    env.structRun.exit = none ∧ env.dataRun.exit = none := by
  unfold exportSlimSql at h
  cases h1 : env.structRun.exit with
  | some m => rw [h1] at h; cases h
  | none =>
    rw [h1] at h
    cases h2 : env.dataRun.exit with
    | some m => rw [h2] at h; cases h
    | none =>
      rw [h2] at h
      exact ⟨rfl, rfl⟩

theorem exportSlimSql_ok_shape (fs : FS) (dbName outFile : String)
    (excl : List String) (env : SlimEnv)
    (h1 : env.structRun.exit = none) (h2 : env.dataRun.exit = none)
    (hsd : structureFileOf outFile env.ts1 ≠ dataFileOf outFile env.ts2) :
    exportSlimSql dbName outFile excl env fs =
      (Except.ok (),
       (((((fs.write (structureFileOf outFile env.ts1)
            env.structRun.chunks.flatten).write (dataFileOf outFile env.ts2)
            env.dataRun.chunks.flatten).write outFile
            (env.structRun.chunks.flatten ++ env.dataRun.chunks.flatten)).unlink
          (structureFileOf outFile env.ts1)).unlink
         (dataFileOf outFile env.ts2)),
       slimTrace env) := by
  have hr1 : FS.read ((fs.write (structureFileOf outFile env.ts1)
      env.structRun.chunks.flatten).write (dataFileOf outFile env.ts2)
      env.dataRun.chunks.flatten) (structureFileOf outFile env.ts1) =
      some env.structRun.chunks.flatten := by
    rw [FS.read_write_ne _ _ _ _ hsd, FS.read_write_same]
  have hr2 : FS.read ((fs.write (structureFileOf outFile env.ts1)
      env.structRun.chunks.flatten).write (dataFileOf outFile env.ts2)
      env.dataRun.chunks.flatten) (dataFileOf outFile env.ts2) =
      some env.dataRun.chunks.flatten := FS.read_write_same _ _ _
  unfold exportSlimSql
  simp only [h1, h2, hr1, hr2]

theorem recreateTemp_ok_of (env : ItemEnv) (temp : String) (st : SysState)
    (h1 : env.existsTempCheck = none) (h2 : env.dropTemp1 = none)
    (h3 : env.createTemp = none) :
    (recreateTemp env temp st).2 = none := by
  unfold recreateTemp
  rw [h1]
  by_cases hx : databaseExists st temp
  · rw [if_pos hx, h2, h3]
  · rw [if_neg hx, h3]

theorem slimCatch_omits (env : ItemEnv) (temp base msg : String)
    (st : SysState) :
    (slimCatch env temp base msg st).2.restored = none ∧
    (slimCatch env temp base msg st).2.slimPath = none := by
  rw [slimCatch_snd]
  exact ⟨rfl, rfl⟩

theorem slimCatch_err (env : ItemEnv) (temp base msg : String)
    (st : SysState) :
    (slimCatch env temp base msg st).2.slimPath = none ∧
    (slimCatch env temp base msg st).2.error.isSome = true := by
  rw [slimCatch_snd]
  exact ⟨rfl, rfl⟩

theorem any_isRestoreEv_map (l : List Nat) (i n : Nat) (base lbl : String)
    (h : isRestoreEv (mkEv i n base lbl 0) = false) :
    (l.map (fun pct => mkEv i n base lbl pct)).any isRestoreEv = false := by
  induction l with
  | nil => rfl
  | cons x xs ih =>
    simp only [List.map_cons, List.any_cons, ih, Bool.or_false]
    exact h

theorem noRestore_creating (i n : Nat) (base : String) (pct : Nat) :
    isRestoreEv (mkEv i n base "Creating temp database..." pct) = false := by
  show List.isPrefixOf "Restoring to ".data "Creating temp database...".data = false
  decide

theorem noRestore_importingLbl (i n : Nat) (base : String) (pct : Nat) :
    isRestoreEv (mkEv i n base "Importing full dump..." pct) = false := by
  show List.isPrefixOf "Restoring to ".data "Importing full dump...".data = false
  decide

theorem noRestore_exportingLbl (i n : Nat) (base : String) (pct : Nat) :
    isRestoreEv (mkEv i n base "Exporting slim dump..." pct) = false := by
  show List.isPrefixOf "Restoring to ".data "Exporting slim dump...".data = false
  decide

theorem noRestore_cleaningLbl (i n : Nat) (base : String) (pct : Nat) :
    isRestoreEv (mkEv i n base "Cleaning up..." pct) = false := by
  show List.isPrefixOf "Restoring to ".data "Cleaning up...".data = false
  decide

theorem noRestore_importEvents (i n : Nat) (base : String) (fileSize : Nat)
    (env : ItemEnv) :
    (importEvents i n base fileSize env).any isRestoreEv = false := by
  unfold importEvents
  exact any_isRestoreEv_map _ _ _ _ _ (noRestore_importingLbl i n base 0)

theorem noRestore_exportEvents (i n : Nat) (base : String) (env : ItemEnv) :
    (exportEvents i n base env).any isRestoreEv = false := by
  unfold exportEvents
  exact any_isRestoreEv_map _ _ _ _ _ (noRestore_exportingLbl i n base 0)

/-! ## Claim theorems -/

/-- C9: `loadExcludeTables` splits the configuration artifact into lines,
trims each line, discards blank lines and lines beginning with `#`, and
returns the remaining trimmed lines verbatim in file order (it equals the
spec-side pipeline `excludeLinesSpec`); a missing artifact yields the empty
list, and any other read error is re-thrown unchanged. -/
theorem loadExcludeTables_spec :
    (∀ content : String,
      loadExcludeTables (Except.ok content) =
        Except.ok (excludeLinesSpec content)) ∧
    loadExcludeTables (Except.error FsError.enoent) = Except.ok [] ∧
    (∀ m : String, loadExcludeTables (Except.error (FsError.other m)) =
      Except.error (FsError.other m)) := by
  refine ⟨fun content => ?_, rfl, fun m => rfl⟩
  simp only [loadExcludeTables, excludeLinesSpec, Except.ok.injEq]
  apply List.filter_congr
  intro l _
  by_cases h1 : l = "" <;> by_cases h2 : l.startsWith "#" <;> simp [h1, h2]

/-- C6 (code bug): the import throttle does NOT emit an update that arrives
more than 200ms after the last emission when the whole-point percentage is
unchanged — the elapsed-time clause is conjoined with
`percentage !== lastPercentage`, so it can never fire on its own. With
`fileSize = 2000`, the update at 1000 bytes (t = 0) emits 50%, and the update
at 1001 bytes (t = 300, i.e. 300ms later, percentage still 50) is dropped,
where the claim requires it to be emitted. -/
theorem importThrottle_timer_clause_dead :
    runImportThrottle 2000 [(1000, 0), (1001, 300)] = [50] ∧
    importPct 2000 1000 = 50 ∧ importPct 2000 1001 = 50 ∧
    200 < 300 - 0 := by
  decide

/-- C5 (code bug): during the data phase `exportSlimSql` reports
`Math.floor(bytesWritten / 2) + bytesWritten` — the offset added is the data
phase's own byte count, not the schema phase's final counter value. With a
100-byte schema dump (final schema counter 50) and a 10-byte data chunk, the
emitted counters are `[50, 15]`: the data-phase value is 15, not the
`10 / 2 + 50 = 55` the claim requires, and the counter decreases across the
phase boundary instead of increasing. -/
theorem exportSlimSql_phase2_counter_wrong :
    (exportSlimSql "shop_temp" "slim/shop_slim.sql" [] envSmall
      [("in/shop.sql", [1, 2, 3, 4])]).2.2 = [50, 15] ∧
    10 / 2 + 50 = 55 ∧ (15 : Nat) ≠ 55 ∧ (15 : Nat) < 50 := by
  refine ⟨by decide, rfl, by decide, by decide⟩

/-- C2: when both export phases exit 0, `exportSlimSql` succeeds and the final
output file holds exactly the schema artifact's bytes followed by the data
artifact's bytes, with nothing else (given that the output path does not
collide with the two timestamp-named private artifacts). -/
theorem exportSlimSql_concat_ok (fs : FS) (dbName outFile : String)
    (excl : List String) (env : SlimEnv)
    (h1 : env.structRun.exit = none) (h2 : env.dataRun.exit = none)
    (hsd : structureFileOf outFile env.ts1 ≠ dataFileOf outFile env.ts2)
    (hos : outFile ≠ structureFileOf outFile env.ts1)
    (hod : outFile ≠ dataFileOf outFile env.ts2) :
    (exportSlimSql dbName outFile excl env fs).1 = Except.ok () ∧
    FS.read (exportSlimSql dbName outFile excl env fs).2.1 outFile =
      some (env.structRun.chunks.flatten ++ env.dataRun.chunks.flatten) := by
  have hr1 : FS.read ((fs.write (structureFileOf outFile env.ts1)
      env.structRun.chunks.flatten).write (dataFileOf outFile env.ts2)
      env.dataRun.chunks.flatten) (structureFileOf outFile env.ts1) =
      some env.structRun.chunks.flatten := by
    rw [FS.read_write_ne _ _ _ _ hsd, FS.read_write_same]
  have hr2 : FS.read ((fs.write (structureFileOf outFile env.ts1)
      env.structRun.chunks.flatten).write (dataFileOf outFile env.ts2)
      env.dataRun.chunks.flatten) (dataFileOf outFile env.ts2) =
      some env.dataRun.chunks.flatten := FS.read_write_same _ _ _
  have hres : exportSlimSql dbName outFile excl env fs =
      (Except.ok (),
       (((((fs.write (structureFileOf outFile env.ts1)
            env.structRun.chunks.flatten).write (dataFileOf outFile env.ts2)
            env.dataRun.chunks.flatten).write outFile
            (env.structRun.chunks.flatten ++ env.dataRun.chunks.flatten)).unlink
          (structureFileOf outFile env.ts1)).unlink
         (dataFileOf outFile env.ts2)),
       slimTrace env) := by
    unfold exportSlimSql
    simp only [h1, h2, hr1, hr2]
  rw [hres]
  refine ⟨rfl, ?_⟩
  rw [FS.read_unlink_ne _ _ _ hod, FS.read_unlink_ne _ _ _ hos,
    FS.read_write_same]

/-- C2 witness: a concrete successful composition. -/
theorem exportSlimSql_concat_ok_witness :
    (exportSlimSql "shop_temp" "slim/shop_slim.sql" [] envSmall
      [("in/shop.sql", [1, 2, 3, 4])]).1 = Except.ok () ∧
    FS.read (exportSlimSql "shop_temp" "slim/shop_slim.sql" [] envSmall
      [("in/shop.sql", [1, 2, 3, 4])]).2.1 "slim/shop_slim.sql" =
      some (envSmall.structRun.chunks.flatten ++
        envSmall.dataRun.chunks.flatten) :=
  exportSlimSql_concat_ok _ _ _ _ _ rfl rfl (by decide) (by decide) (by decide)

/-- C3: if either export phase of `exportSlimSql` fails, the matching phase
error is re-raised, the final output file is untouched (its prior content, or
absence, is preserved), and both private artifacts are gone. -/
theorem exportSlimSql_failure_cleanup (fs : FS) (dbName outFile : String)
    (excl : List String) (env : SlimEnv) (m : String)
    (hsd : structureFileOf outFile env.ts1 ≠ dataFileOf outFile env.ts2)
    (hos : outFile ≠ structureFileOf outFile env.ts1)
    (hod : outFile ≠ dataFileOf outFile env.ts2)
    (h : env.structRun.exit = some m ∨
      (env.structRun.exit = none ∧ env.dataRun.exit = some m)) :
    ((env.structRun.exit = some m →
        (exportSlimSql dbName outFile excl env fs).1 =
          Except.error ("MySQL structure export failed: " ++ m)) ∧
      (env.structRun.exit = none →
        (exportSlimSql dbName outFile excl env fs).1 =
          Except.error ("MySQL data export failed: " ++ m))) ∧
    FS.read (exportSlimSql dbName outFile excl env fs).2.1 outFile =
      FS.read fs outFile ∧
    FS.read (exportSlimSql dbName outFile excl env fs).2.1
      (structureFileOf outFile env.ts1) = none ∧
    FS.read (exportSlimSql dbName outFile excl env fs).2.1
      (dataFileOf outFile env.ts2) = none := by
  rcases h with h1 | ⟨h1, h2⟩
  · have hres : exportSlimSql dbName outFile excl env fs =
        (Except.error ("MySQL structure export failed: " ++ m),
         (((fs.write (structureFileOf outFile env.ts1)
              env.structRun.chunks.flatten).unlink
            (structureFileOf outFile env.ts1)).unlink
           (dataFileOf outFile env.ts2)),
         slimTrace env) := by
      unfold exportSlimSql
      simp only [h1]
    rw [hres]
    refine ⟨⟨fun _ => rfl, fun hx => ?_⟩, ?_, ?_, ?_⟩
    · rw [h1] at hx; cases hx
    · rw [FS.read_unlink_ne _ _ _ hod, FS.read_unlink_ne _ _ _ hos,
        FS.read_write_ne _ _ _ _ hos]
    · rw [FS.read_unlink_ne _ _ _ hsd, FS.read_unlink_same]
    · rw [FS.read_unlink_same]
  · have hres : exportSlimSql dbName outFile excl env fs =
        (Except.error ("MySQL data export failed: " ++ m),
         ((((fs.write (structureFileOf outFile env.ts1)
              env.structRun.chunks.flatten).write
              (dataFileOf outFile env.ts2)
              env.dataRun.chunks.flatten).unlink
            (structureFileOf outFile env.ts1)).unlink
           (dataFileOf outFile env.ts2)),
         slimTrace env) := by
      unfold exportSlimSql
      simp only [h1, h2]
    rw [hres]
    refine ⟨⟨fun hx => ?_, fun _ => rfl⟩, ?_, ?_, ?_⟩
    · rw [h1] at hx; cases hx
    · rw [FS.read_unlink_ne _ _ _ hod, FS.read_unlink_ne _ _ _ hos,
        FS.read_write_ne _ _ _ _ hod, FS.read_write_ne _ _ _ _ hos]
    · rw [FS.read_unlink_ne _ _ _ hsd, FS.read_unlink_same]
    · rw [FS.read_unlink_same]

/-- C3 witness: a concrete data-phase failure over a filesystem that already
holds an output file with content `[9]`: the error propagates, the output
file keeps its prior content, and both artifacts are gone. -/
theorem exportSlimSql_failure_cleanup_witness :
    ((envDataFail.structRun.exit = some "badexit" →
        (exportSlimSql "shop_temp" "o.sql" [] envDataFail
          [("o.sql", [9])]).1 =
          Except.error ("MySQL structure export failed: " ++ "badexit")) ∧
      (envDataFail.structRun.exit = none →
        (exportSlimSql "shop_temp" "o.sql" [] envDataFail
          [("o.sql", [9])]).1 =
          Except.error ("MySQL data export failed: " ++ "badexit"))) ∧
    FS.read (exportSlimSql "shop_temp" "o.sql" [] envDataFail
      [("o.sql", [9])]).2.1 "o.sql" = FS.read [("o.sql", [9])] "o.sql" ∧
    FS.read (exportSlimSql "shop_temp" "o.sql" [] envDataFail
      [("o.sql", [9])]).2.1 (structureFileOf "o.sql" envDataFail.ts1) = none ∧
    FS.read (exportSlimSql "shop_temp" "o.sql" [] envDataFail
      [("o.sql", [9])]).2.1 (dataFileOf "o.sql" envDataFail.ts2) = none :=
  exportSlimSql_failure_cleanup _ _ _ _ _ _ (by decide) (by decide) (by decide)
    (Or.inr ⟨rfl, rfl⟩)

/-- C7 (code bug): the percentages emitted under the single phase label
"Exporting slim dump..." are NOT monotonic non-decreasing. With a 4 MiB
schema dump the schema phase reports counter 2097152 (2%), after which the
data phase's first 10-byte chunk reports counter 15 (0%) — a consequence of
the phase-2 counter slip of C5 — and the throttle emits the drop because the
percentage changed. The label's percentage sequence is `[0, 2, 0]`. -/
theorem exportStep_pcts_not_monotone :
    exportStepPcts ((slimTrace envBigSchema).zip [0, 0]) = [0, 2, 0] ∧
    ¬ List.Sorted (· ≤ ·) (exportStepPcts ((slimTrace envBigSchema).zip [0, 0])) ∧
    ((mkEv 0 1 "shop" "Exporting slim dump..." 0 ::
        exportEvents 0 1 "shop" envBig).map (fun e => e.stepProgress)) =
      [some 0, some 2, some 0] := by
  have hlen : bigChunk.length = 4194304 := by
    unfold bigChunk
    exact List.length_replicate _ _
  have e0 : ∀ (s d : Bytes) (t1 t2 : Nat),
      slimTrace ⟨⟨[s], none⟩, ⟨[d], none⟩, t1, t2⟩ =
        [(0 + s.length) / 2, (0 + d.length) / 2 + (0 + d.length)] :=
    fun _ _ _ _ => rfl
  have e1 : envBigSchema =
      ⟨⟨[bigChunk], none⟩, ⟨[List.replicate 10 0], none⟩, 1, 2⟩ := rfl
  have htr : slimTrace envBigSchema = [2097152, 15] := by
    rw [e1, e0]
    simp only [Nat.zero_add, hlen, List.length_replicate]
  have hthr : runExportThrottleGo 0 0 [(2097152, 0), (15, 0)] = [2, 0] := by
    decide
  have hp : exportStepPcts ((slimTrace envBigSchema).zip [0, 0]) = [0, 2, 0] := by
    rw [htr]
    show 0 :: runExportThrottleGo 0 0 [(2097152, 0), (15, 0)] = [0, 2, 0]
    rw [hthr]
  refine ⟨hp, by rw [hp]; decide, ?_⟩
  show ((mkEv 0 1 "shop" "Exporting slim dump..." 0 ::
      (runExportThrottleGo 0 0
        ((slimTrace envBig.slimEnv).zip envBig.exportTimes)).map
        (fun pct => mkEv 0 1 "shop" "Exporting slim dump..." pct)).map
      (fun e => e.stepProgress)) = [some 0, some 2, some 0]
  have hsl : envBig.slimEnv = envBigSchema := rfl
  have hti : envBig.exportTimes = [0, 0] := rfl
  rw [hsl, hti, htr]
  show ((mkEv 0 1 "shop" "Exporting slim dump..." 0 ::
      (runExportThrottleGo 0 0 [(2097152, 0), (15, 0)]).map
        (fun pct => mkEv 0 1 "shop" "Exporting slim dump..." pct)).map
      (fun e => e.stepProgress)) = [some 0, some 2, some 0]
  rw [hthr]
  rfl

/-- C4 (amended): after an item reaches its terminal state, its workspace
`<base>_temp` is gone from the engine — PROVIDED the best-effort cleanup of
the per-item catch itself succeeds (its existence check and drop do not fail)
and no restore target is named like the workspace. The unconditional claim is
false: see the counterexample, where the swallowed catch-path drop fails and
the workspace persists. -/
theorem processItem_workspace_dropped (n i : Nat) (slimDir : String)
    (cfg : RestoreCfg) (excl : List String) (env : ItemEnv) (p : String)
    (st0 : SysState)
    (h1 : env.catchExistsCheck = none) (h2 : env.catchDrop = none)
    (h3 : targetOf cfg p ≠ some (basenameNoExt p ++ "_temp")) :
    (processItem n i slimDir cfg excl env p st0).1.dbs.contains
      (basenameNoExt p ++ "_temp") = false := by
  simp only [processItem]
  rcases hrec : recreateTemp env (basenameNoExt p ++ "_temp") st0 with ⟨st1, mo⟩
  cases mo with
  | some m => exact slimCatch_clears env _ _ m st1 h1 h2
  | none =>
    try simp only []
    cases hread : FS.read st1.files p with
    | none => exact slimCatch_clears env _ _ _ st1 h1 h2
    | some content =>
      try simp only []
      cases himp : env.importExit with
      | some m => exact slimCatch_clears env _ _ _ st1 h1 h2
      | none =>
        try simp only []
        rcases hexp : exportSlimSql (basenameNoExt p ++ "_temp")
            (pathJoin slimDir (basenameNoExt p ++ "_slim.sql")) excl
            env.slimEnv st1.files with ⟨res, files2, tr⟩
        cases res with
        | error m =>
            exact slimCatch_clears env _ _ m { st1 with files := files2 } h1 h2
        | ok u =>
          try simp only []
          cases hdrop : env.dropTemp2 with
          | some m =>
              exact slimCatch_clears env _ _ _ { st1 with files := files2 } h1 h2
          | none =>
            try simp only []
            rcases hrs : restoreStep i n (basenameNoExt p)
                (pathJoin slimDir (basenameNoExt p ++ "_slim.sql")) cfg env p
                (dropDatabase { st1 with files := files2 }
                  (basenameNoExt p ++ "_temp")) with ⟨st4, revs, rr⟩
            have habs : st4.dbs.contains (basenameNoExt p ++ "_temp") = false := by
              have hd := dbs_dropDatabase_self { st1 with files := files2 }
                (basenameNoExt p ++ "_temp")
              have hk := restoreStep_keeps_absent i n (basenameNoExt p)
                (pathJoin slimDir (basenameNoExt p ++ "_slim.sql")) cfg env p
                (dropDatabase { st1 with files := files2 }
                  (basenameNoExt p ++ "_temp"))
                (basenameNoExt p ++ "_temp") h3 hd
              rw [hrs] at hk
              exact hk
            cases rr with
            | error m => exact slimCatch_clears env _ _ m st4 h1 h2
            | ok rinfo =>
              try simp only []
              cases hra : FS.read st4.files p with
              | none => exact slimCatch_clears env _ _ _ st4 h1 h2
              | some fullC =>
                try simp only []
                cases hrb : FS.read st4.files
                    (pathJoin slimDir (basenameNoExt p ++ "_slim.sql")) with
                | none => exact slimCatch_clears env _ _ _ st4 h1 h2
                | some slimC => exact habs

/-- C4 counterexample: the claim as stated is false. When the import fails
and the swallowed best-effort drop of the catch also fails, the item reaches
its terminal state (its ItemResult records success = false) while the
workspace `shop_temp` still exists in the engine. -/
theorem processItem_workspace_persists_cex :
    (processItem 1 0 "slim" ⟨false, []⟩ [] envCatchFail "in/shop.sql"
      st0).1.dbs.contains "shop_temp" = true ∧
    (processItem 1 0 "slim" ⟨false, []⟩ [] envCatchFail "in/shop.sql"
      st0).2.1.success = false := by
  decide

/-- C4 witness: a concrete fully-successful item, whose workspace is gone at
the end. -/
theorem processItem_workspace_dropped_witness :
    (processItem 1 0 "slim" ⟨false, []⟩ [] envOK "in/shop.sql"
      st0).1.dbs.contains (basenameNoExt "in/shop.sql" ++ "_temp") = false :=
  processItem_workspace_dropped 1 0 "slim" ⟨false, []⟩ [] envOK "in/shop.sql"
    st0 rfl rfl (by decide)

/-- C8 (amended): an ItemResult with success == false records no restore
outcome and no output path; and restore events are only ever emitted after
the temp-database creation, the import, both export phases and the cleanup
drop have all succeeded. The claim's stronger reading — success == false
implies no restore was attempted at all — is false: see the counterexample,
where the restore import fails after the target database was recreated. -/
theorem processItem_failure_restore (n i : Nat) (slimDir : String)
    (cfg : RestoreCfg) (excl : List String) (env : ItemEnv) (p : String)
    (st0 : SysState) :
    ((processItem n i slimDir cfg excl env p st0).2.1.success = false →
      (processItem n i slimDir cfg excl env p st0).2.1.restored = none ∧
      (processItem n i slimDir cfg excl env p st0).2.1.slimPath = none) ∧
    ((processItem n i slimDir cfg excl env p st0).2.2.any isRestoreEv = true →
      env.existsTempCheck = none ∧ env.createTemp = none ∧
      env.importExit = none ∧ env.slimEnv.structRun.exit = none ∧
      env.slimEnv.dataRun.exit = none ∧ env.dropTemp2 = none) := by
  suffices H :
      ((processItem n i slimDir cfg excl env p st0).2.1.success = true ∨
        ((processItem n i slimDir cfg excl env p st0).2.1.restored = none ∧
         (processItem n i slimDir cfg excl env p st0).2.1.slimPath = none)) ∧
      ((processItem n i slimDir cfg excl env p st0).2.2.any isRestoreEv = false ∨
        (env.existsTempCheck = none ∧ env.createTemp = none ∧
         env.importExit = none ∧ env.slimEnv.structRun.exit = none ∧
         env.slimEnv.dataRun.exit = none ∧ env.dropTemp2 = none)) by
    constructor
    · intro hfail
      rcases H.1 with h | h
      · rw [h] at hfail; cases hfail
      · exact h
    · intro hev
      rcases H.2 with h | h
      · rw [h] at hev; cases hev
      · exact h
  simp only [processItem]
  rcases hrec : recreateTemp env (basenameNoExt p ++ "_temp") st0 with ⟨st1, mo⟩
  cases mo with
  | some m =>
      refine ⟨Or.inr (slimCatch_omits env _ _ m st1), Or.inl ?_⟩
      exact (by simp only [List.any_cons, List.any_nil, noRestore_creating,
          Bool.or_false] :
        ([mkEv i n (basenameNoExt p) "Creating temp database..." 0].any
          isRestoreEv) = false)
  | none =>
    try simp only []
    cases hread : FS.read st1.files p with
    | none =>
        refine ⟨Or.inr (slimCatch_omits env _ _ _ st1), Or.inl ?_⟩
        exact (by simp only [List.any_cons, List.any_nil, noRestore_creating,
            Bool.or_false] :
          ([mkEv i n (basenameNoExt p) "Creating temp database..." 0,
            mkEv i n (basenameNoExt p) "Creating temp database..." 100].any
            isRestoreEv) = false)
    | some content =>
      try simp only []
      cases himp : env.importExit with
      | some m =>
          refine ⟨Or.inr (slimCatch_omits env _ _ _ st1), Or.inl ?_⟩
          exact (by simp only [List.any_append, List.any_cons, List.any_nil,
              noRestore_creating, noRestore_importingLbl, noRestore_importEvents,
              Bool.or_false, Bool.false_or] :
            (([mkEv i n (basenameNoExt p) "Creating temp database..." 0,
               mkEv i n (basenameNoExt p) "Creating temp database..." 100,
               mkEv i n (basenameNoExt p) "Importing full dump..." 0] ++
              importEvents i n (basenameNoExt p) content.length env).any
              isRestoreEv) = false)
      | none =>
        try simp only []
        rcases hexp : exportSlimSql (basenameNoExt p ++ "_temp")
            (pathJoin slimDir (basenameNoExt p ++ "_slim.sql")) excl
            env.slimEnv st1.files with ⟨res, files2, tr⟩
        have hnoexp : (([mkEv i n (basenameNoExt p)
              "Creating temp database..." 0,
            mkEv i n (basenameNoExt p) "Creating temp database..." 100,
            mkEv i n (basenameNoExt p) "Importing full dump..." 0] ++
            importEvents i n (basenameNoExt p) content.length env ++
            [mkEv i n (basenameNoExt p) "Exporting slim dump..." 0] ++
            exportEvents i n (basenameNoExt p) env).any isRestoreEv) = false := by
          simp only [List.any_append, List.any_cons, List.any_nil,
            noRestore_creating, noRestore_importingLbl, noRestore_exportingLbl,
            noRestore_importEvents, noRestore_exportEvents,
            Bool.or_false, Bool.false_or]
        cases res with
        | error m =>
            exact ⟨Or.inr (slimCatch_omits env _ _ m
              { st1 with files := files2 }), Or.inl hnoexp⟩
        | ok u =>
          cases u
          have hexits := exportSlimSql_ok_exits (basenameNoExt p ++ "_temp")
            (pathJoin slimDir (basenameNoExt p ++ "_slim.sql")) excl
            env.slimEnv st1.files (by rw [hexp])
          have henv := recreateTemp_ok_env env (basenameNoExt p ++ "_temp") st0
            (by rw [hrec])
          try simp only []
          cases hdrop : env.dropTemp2 with
          | some m =>
              refine ⟨Or.inr (slimCatch_omits env _ _ _
                { st1 with files := files2 }), Or.inl ?_⟩
              exact (by simp only [List.any_append, List.any_cons, List.any_nil,
                  noRestore_creating, noRestore_importingLbl,
                  noRestore_exportingLbl, noRestore_cleaningLbl,
                  noRestore_importEvents, noRestore_exportEvents,
                  Bool.or_false, Bool.false_or] :
                (([mkEv i n (basenameNoExt p) "Creating temp database..." 0,
                   mkEv i n (basenameNoExt p) "Creating temp database..." 100,
                   mkEv i n (basenameNoExt p) "Importing full dump..." 0] ++
                  importEvents i n (basenameNoExt p) content.length env ++
                  [mkEv i n (basenameNoExt p) "Exporting slim dump..." 0] ++
                  exportEvents i n (basenameNoExt p) env ++
                  [mkEv i n (basenameNoExt p) "Cleaning up..." 0]).any
                  isRestoreEv) = false)
          | none =>
            try simp only []
            rcases hrs : restoreStep i n (basenameNoExt p)
                (pathJoin slimDir (basenameNoExt p ++ "_slim.sql")) cfg env p
                (dropDatabase { st1 with files := files2 }
                  (basenameNoExt p ++ "_temp")) with ⟨st4, revs, rr⟩
            cases rr with
            | error m =>
                exact ⟨Or.inr (slimCatch_omits env _ _ m st4), Or.inr (by refine ⟨henv.1, henv.2, ?_, hexits.1, hexits.2, ?_⟩ <;> trivial)⟩
            | ok rinfo =>
              try simp only []
              cases hra : FS.read st4.files p with
              | none =>
                  exact ⟨Or.inr (slimCatch_omits env _ _ _ st4), Or.inr (by refine ⟨henv.1, henv.2, ?_, hexits.1, hexits.2, ?_⟩ <;> trivial)⟩
              | some fullC =>
                try simp only []
                cases hrb : FS.read st4.files
                    (pathJoin slimDir (basenameNoExt p ++ "_slim.sql")) with
                | none =>
                    exact ⟨Or.inr (slimCatch_omits env _ _ _ st4),
                      Or.inr (by refine ⟨henv.1, henv.2, ?_, hexits.1, hexits.2, ?_⟩ <;> trivial)⟩
                | some slimC => exact ⟨Or.inl rfl, Or.inr (by refine ⟨henv.1, henv.2, ?_, hexits.1, hexits.2, ?_⟩ <;> trivial)⟩

/-- C8 counterexample: the claim as stated is false. When the restore import
fails, the item's ItemResult has success = false even though a restore WAS
attempted: the target database `tgt` was recreated (it exists afterwards) and
restore progress events were emitted. -/
theorem processItem_restore_attempted_cex :
    (processItem 1 0 "slim" ⟨true, [("in/shop.sql", "tgt")]⟩ [] envRestoreFail
      "in/shop.sql" st0).2.1.success = false ∧
    (processItem 1 0 "slim" ⟨true, [("in/shop.sql", "tgt")]⟩ [] envRestoreFail
      "in/shop.sql" st0).1.dbs.contains "tgt" = true ∧
    (processItem 1 0 "slim" ⟨true, [("in/shop.sql", "tgt")]⟩ [] envRestoreFail
      "in/shop.sql" st0).2.2.any isRestoreEv = true := by
  decide

/-- C8 witness: a concrete failed item (import failure) whose result records
no restore outcome and no output path. -/
theorem processItem_failure_restore_witness :
    (processItem 1 0 "slim" ⟨false, []⟩ [] envImportFail "in/shop.sql"
      st0).2.1.restored = none ∧
    (processItem 1 0 "slim" ⟨false, []⟩ [] envImportFail "in/shop.sql"
      st0).2.1.slimPath = none :=
  (processItem_failure_restore 1 0 "slim" ⟨false, []⟩ [] envImportFail
    "in/shop.sql" st0).1 (by decide)

/-- C10: if everything up to and including the cleanup drop succeeds (so the
slim dump has been composed at `<slimDir>/<base>_slim.sql`), then whatever
the optional restore step does, the produced output file is still on disk
with exactly the composed bytes when the item ends — the per-item failure
handler touches only the temp database, never the output artifact — and if
the item is recorded as failed (e.g. the restore failed), its ItemResult
omits the output path while carrying an error message. -/
theorem processItem_restore_failure_keeps_output (n i : Nat) (slimDir : String)
    (cfg : RestoreCfg) (excl : List String) (env : ItemEnv) (p : String)
    (st0 : SysState) (content : Bytes)
    (h1 : env.existsTempCheck = none) (h2 : env.dropTemp1 = none)
    (h3 : env.createTemp = none)
    (h4 : FS.read st0.files p = some content)
    (h5 : env.importExit = none)
    (h6 : env.slimEnv.structRun.exit = none)
    (h7 : env.slimEnv.dataRun.exit = none)
    (h8 : env.dropTemp2 = none)
    (hsd : structureFileOf (pathJoin slimDir (basenameNoExt p ++ "_slim.sql"))
        env.slimEnv.ts1 ≠
      dataFileOf (pathJoin slimDir (basenameNoExt p ++ "_slim.sql"))
        env.slimEnv.ts2)
    (hos : pathJoin slimDir (basenameNoExt p ++ "_slim.sql") ≠
      structureFileOf (pathJoin slimDir (basenameNoExt p ++ "_slim.sql"))
        env.slimEnv.ts1)
    (hod : pathJoin slimDir (basenameNoExt p ++ "_slim.sql") ≠
      dataFileOf (pathJoin slimDir (basenameNoExt p ++ "_slim.sql"))
        env.slimEnv.ts2) :
    FS.read (processItem n i slimDir cfg excl env p st0).1.files
      (pathJoin slimDir (basenameNoExt p ++ "_slim.sql")) =
      some (env.slimEnv.structRun.chunks.flatten ++
        env.slimEnv.dataRun.chunks.flatten) ∧
    ((processItem n i slimDir cfg excl env p st0).2.1.success = false →
      (processItem n i slimDir cfg excl env p st0).2.1.slimPath = none ∧
      (processItem n i slimDir cfg excl env p st0).2.1.error.isSome = true) := by
  simp only [processItem]
  rcases hrec : recreateTemp env (basenameNoExt p ++ "_temp") st0 with ⟨st1, mo⟩
  have hmo : mo = none := by
    have hh := recreateTemp_ok_of env (basenameNoExt p ++ "_temp") st0 h1 h2 h3
    rw [hrec] at hh
    exact hh
  subst hmo
  have hf1 : st1.files = st0.files := by
    have hh := recreateTemp_files env (basenameNoExt p ++ "_temp") st0
    rw [hrec] at hh
    exact hh
  try simp only []
  rw [hf1]
  simp only [h4, h5]
  rw [exportSlimSql_ok_shape st0.files (basenameNoExt p ++ "_temp")
    (pathJoin slimDir (basenameNoExt p ++ "_slim.sql")) excl env.slimEnv
    h6 h7 hsd]
  try simp only []
  simp only [h8]
  try simp only []
  set F : FS :=
    ((((st0.files.write
        (structureFileOf (pathJoin slimDir (basenameNoExt p ++ "_slim.sql"))
          env.slimEnv.ts1)
        env.slimEnv.structRun.chunks.flatten).write
        (dataFileOf (pathJoin slimDir (basenameNoExt p ++ "_slim.sql"))
          env.slimEnv.ts2)
        env.slimEnv.dataRun.chunks.flatten).write
        (pathJoin slimDir (basenameNoExt p ++ "_slim.sql"))
        (env.slimEnv.structRun.chunks.flatten ++
          env.slimEnv.dataRun.chunks.flatten)).unlink
      (structureFileOf (pathJoin slimDir (basenameNoExt p ++ "_slim.sql"))
        env.slimEnv.ts1)).unlink
      (dataFileOf (pathJoin slimDir (basenameNoExt p ++ "_slim.sql"))
        env.slimEnv.ts2) with hF
  have hread : FS.read F
      (pathJoin slimDir (basenameNoExt p ++ "_slim.sql")) =
      some (env.slimEnv.structRun.chunks.flatten ++
        env.slimEnv.dataRun.chunks.flatten) := by
    rw [hF, FS.read_unlink_ne _ _ _ hod, FS.read_unlink_ne _ _ _ hos,
      FS.read_write_same]
  rcases hrs : restoreStep i n (basenameNoExt p)
      (pathJoin slimDir (basenameNoExt p ++ "_slim.sql")) cfg env p
      (dropDatabase { st1 with files := F }
        (basenameNoExt p ++ "_temp")) with ⟨st4, revs, rr⟩
  have hf4 : st4.files = F := by
    have hh := restoreStep_files i n (basenameNoExt p)
      (pathJoin slimDir (basenameNoExt p ++ "_slim.sql")) cfg env p
      (dropDatabase { st1 with files := F } (basenameNoExt p ++ "_temp"))
    rw [hrs] at hh
    exact hh
  cases rr with
  | error m =>
    try simp only []
    constructor
    · rw [slimCatch_files, hf4]
      exact hread
    · intro _
      exact slimCatch_err env _ _ m st4
  | ok rinfo =>
    try simp only []
    cases hra : FS.read st4.files p with
    | none =>
      try simp only []
      constructor
      · rw [slimCatch_files, hf4]
        exact hread
      · intro _
        exact slimCatch_err env _ _ _ st4
    | some fullC =>
      try simp only []
      have hrb : FS.read st4.files
          (pathJoin slimDir (basenameNoExt p ++ "_slim.sql")) =
          some (env.slimEnv.structRun.chunks.flatten ++
            env.slimEnv.dataRun.chunks.flatten) := by
        rw [hf4]
        exact hread
      simp only [hrb]
      try simp only []
      constructor
      · trivial
      · intro hfail
        exact absurd (show true = false from hfail) (by decide)

/-- C10 witness: a concrete item whose restore fails after the slim dump was
written: the output file still holds the composed bytes and the failure entry
omits the output path. -/
theorem processItem_restore_failure_keeps_output_witness :
    FS.read (processItem 1 0 "slim" ⟨true, [("in/shop.sql", "tgt")]⟩ []
        envRestoreFail "in/shop.sql" st0).1.files
      (pathJoin "slim" (basenameNoExt "in/shop.sql" ++ "_slim.sql")) =
      some (envRestoreFail.slimEnv.structRun.chunks.flatten ++
        envRestoreFail.slimEnv.dataRun.chunks.flatten) ∧
    ((processItem 1 0 "slim" ⟨true, [("in/shop.sql", "tgt")]⟩ []
        envRestoreFail "in/shop.sql" st0).2.1.success = false →
      (processItem 1 0 "slim" ⟨true, [("in/shop.sql", "tgt")]⟩ []
        envRestoreFail "in/shop.sql" st0).2.1.slimPath = none ∧
      (processItem 1 0 "slim" ⟨true, [("in/shop.sql", "tgt")]⟩ []
        envRestoreFail "in/shop.sql" st0).2.1.error.isSome = true) :=
  processItem_restore_failure_keeps_output 1 0 "slim"
    ⟨true, [("in/shop.sql", "tgt")]⟩ [] envRestoreFail "in/shop.sql" st0
    [1, 2, 3, 4] rfl rfl rfl (by decide) rfl rfl rfl rfl (by decide)
    (by decide) (by decide)

/-- C1: the slim batch returns exactly one ItemResult per input file, in
input order: (1) the result list has the batch's length; (2) the k-th result
is exactly the result of processing the k-th input — with the state left by
the previous items — so a failure of item k cannot abort or skip item k+1;
(3) whenever an item's processing throws, the per-item catch records an entry
with success = false carrying the error's message (and nothing else), with
the best-effort workspace drop's own errors swallowed — `slimCatch` always
returns `failRes` whatever the catch-path outcomes are; (4) when the
exclusion configuration loads, the handler returns these results. -/
theorem slimLoop_batch_shape (n : Nat) (slimDir : String) (cfg : RestoreCfg)
    (excl : List String) :
    (∀ (i : Nat) (st : SysState) (items : List (String × ItemEnv)),
      (slimLoop n slimDir cfg excl i st items).2.1.length = items.length) ∧
    (∀ (items : List (String × ItemEnv)) (i : Nat) (st : SysState) (k : Nat)
        (p : String) (env : ItemEnv), items[k]? = some (p, env) →
      (slimLoop n slimDir cfg excl i st items).2.1[k]? =
        some ((processItem n (i + k) slimDir cfg excl env p
          (slimLoop n slimDir cfg excl i st (items.take k)).1).2.1)) ∧
    (∀ (env : ItemEnv) (temp base msg : String) (st : SysState),
      (slimCatch env temp base msg st).2 = failRes base msg) ∧
    (∀ (cfgLoad : Except FsError String) (st : SysState)
        (items : List (String × ItemEnv)) (excl2 : List String),
      loadExcludeTables cfgLoad = Except.ok excl2 →
      slimStart slimDir cfg cfgLoad items st =
        Except.ok ((slimLoop items.length slimDir cfg excl2 0 st items).1,
          (slimLoop items.length slimDir cfg excl2 0 st items).2.1,
          (slimLoop items.length slimDir cfg excl2 0 st items).2.2 ++
            [completeEv items.length])) := by
  refine ⟨?_, ?_, fun env temp base msg st => slimCatch_snd env temp base msg st, ?_⟩
  · intro i st items
    induction items generalizing i st with
    | nil => rfl
    | cons it rest ih =>
      obtain ⟨p, env⟩ := it
      have e : (slimLoop n slimDir cfg excl i st ((p, env) :: rest)).2.1 =
          (processItem n i slimDir cfg excl env p st).2.1 ::
            (slimLoop n slimDir cfg excl (i + 1)
              (processItem n i slimDir cfg excl env p st).1 rest).2.1 := rfl
      rw [e]
      simp [ih]
  · intro items
    induction items with
    | nil =>
      intro i st k p env h
      simp at h
    | cons it rest ih =>
      intro i st k p env h
      obtain ⟨p0, env0⟩ := it
      have e : (slimLoop n slimDir cfg excl i st ((p0, env0) :: rest)).2.1 =
          (processItem n i slimDir cfg excl env0 p0 st).2.1 ::
            (slimLoop n slimDir cfg excl (i + 1)
              (processItem n i slimDir cfg excl env0 p0 st).1 rest).2.1 := rfl
      cases k with
      | zero =>
        have hpe : p0 = p ∧ env0 = env := by
          simpa using h
        obtain ⟨hp, he⟩ := hpe
        subst hp
        subst he
        rw [e]
        rw [List.getElem?_cons_zero]
        rfl
      | succ k' =>
        simp only [List.getElem?_cons_succ] at h
        rw [e, List.getElem?_cons_succ]
        have ihh := ih (i + 1)
          ((processItem n i slimDir cfg excl env0 p0 st).1) k' p env h
        rw [ihh]
        have hidx : i + 1 + k' = i + (k' + 1) := by omega
        rw [hidx]
        rfl
  · intro cfgLoad st items excl2 hload
    unfold slimStart
    rw [hload]

/-- C1 witness: in a concrete two-item batch whose first item fails, the
second item is still processed, and its result is the second entry of the
result list. -/
theorem slimLoop_batch_shape_witness :
    (slimLoop 2 "slim" ⟨false, []⟩ [] 0 st0 itemsW).2.1[1]? =
      some ((processItem 2 (0 + 1) "slim" ⟨false, []⟩ [] envOK "in/shop.sql"
        (slimLoop 2 "slim" ⟨false, []⟩ [] 0 st0 (itemsW.take 1)).1).2.1) :=
  (slimLoop_batch_shape 2 "slim" ⟨false, []⟩ []).2.1 itemsW 0 st0 1
    "in/shop.sql" envOK rfl

end DBForge
